/-
Verification of the JSON_bourne polling/caching core against its
natural-language specification.

The embedding below translates the three source files
(`webserver.py`, `block.py`, `external_webpage/get_webpage.py`)
into Lean definitions:

* Python values that flow through the shared cache (`_scraped_data`) are
  modelled by `PyValue`; the Python dict is an insertion-ordered
  association list with `lookupA` / `insertA` mirroring `d[k]` and
  `d[k] = v`.
* `json.dumps` is modelled by `json_dumps`: it succeeds exactly on values
  built from strings, booleans and dicts and fails (raising `TypeError`,
  a non-`ValueError` exception) on other Python objects (`PyValue.obj`).
* The request handler `MyHandler.do_GET` is modelled by `do_GET`,
  including the `re.search` calls for the `callback=(\w+)&` and
  `&Instrument=(\w+)&` patterns (`searchParam`).
* The polling thread `WebScraper.run` is modelled by a per-attempt state
  transition (`stepSuccess` / `stepFailure` over `ScraperState`) and by a
  fuel-indexed event trace (`runTrace`), with the interruptible wait
  `WebScraper.wait` modelled by `waitTrace`.
* The outbound HTTP calls of `PageReader` are modelled by the request
  descriptors they construct (`get_info_request`, `read_config_request`),
  whose `timeout` field mirrors the `timeout` keyword of `requests.get`
  (`none` = the argument is omitted, i.e. no timeout).
-/
import Mathlib

set_option autoImplicit false

/-- A Python value as it appears in the scraped-data cache: strings,
booleans, (insertion-ordered) dicts, and otherwise-opaque Python objects
that `json.dumps` cannot serialize. -/
inductive PyValue where
  | str : String → PyValue
  | bool : Bool → PyValue
  | dict : List (String × PyValue) → PyValue
  | obj : String → PyValue

namespace PyValue

/-- Structural equality of Python values (`==` in Python). -/
def beq : PyValue → PyValue → Bool
  | .str a, .str b => a == b
  | .bool a, .bool b => a == b
  | .obj a, .obj b => a == b
  | .dict a, .dict b => beqEntries a b
  | _, _ => false
where
  /-- Structural equality of dict entry lists. -/
  beqEntries : List (String × PyValue) → List (String × PyValue) → Bool
  | [], [] => true
  | (k1, v1) :: r1, (k2, v2) :: r2 => k1 == k2 && beq v1 v2 && beqEntries r1 r2
  | _, _ => false

instance : BEq PyValue := ⟨beq⟩

/-- Whether `json.dumps` accepts the value (no opaque objects inside). -/
def serializable : PyValue → Bool
  | .str _ => true
  | .bool _ => true
  | .obj _ => false
  | .dict l => serializableEntries l
where
  /-- All values of a dict entry list are serializable. -/
  serializableEntries : List (String × PyValue) → Bool
  | [] => true
  | p :: rest => serializable p.2 && serializableEntries rest

end PyValue

/-- One character of a JSON string literal, escaped as `json.dumps` does
for quotes and backslashes. -/
def jsonEscapeChar (c : Char) : String :=
  if c = '"' then "\\\"" else if c = '\\' then "\\\\" else String.singleton c

/-- Body of a JSON string literal. -/
def jsonEscape (s : String) : String :=
  String.join (s.toList.map jsonEscapeChar)

/-- The JSON text `json.dumps` produces for a serializable value
(default Python 2 separators). -/
def render : PyValue → String
  | .str s => "\"" ++ jsonEscape s ++ "\""
  | .bool b => if b then "true" else "false"
  | .obj _ => ""
  | .dict l => "\x7b" ++ renderEntries l ++ "\x7d"
where
  /-- JSON text of the entries of a dict. -/
  renderEntries : List (String × PyValue) → String
  | [] => ""
  | [p] => "\"" ++ jsonEscape p.1 ++ "\": " ++ render p.2
  | p :: q :: rest =>
      "\"" ++ jsonEscape p.1 ++ "\": " ++ render p.2 ++ ", " ++ renderEntries (q :: rest)

/-- `json.dumps`: the JSON text when the value is serializable, `none`
when it raises `TypeError` (which is not a `ValueError`). -/
def json_dumps (v : PyValue) : Option String :=
  if v.serializable then some (render v) else none

/-- Python dict read `d[k]`: value of the first (unique) entry with key
`k`, `none` when the key is missing. -/
def lookupA {α : Type} : List (String × α) → String → Option α
  | [], _ => none
  | p :: rest, k => if p.1 == k then some p.2 else lookupA rest k

/-- Python dict write `d[k] = v`: overwrite the entry for `k` in place,
or append a new entry (insertion order preserved). -/
def insertA {α : Type} : List (String × α) → String → α → List (String × α)
  | [], k, v => [(k, v)]
  | p :: rest, k, v => if p.1 == k then (k, v) :: rest else p :: insertA rest k v

theorem lookupA_insertA_self {α : Type} (l : List (String × α)) (k : String) (v : α) :
    lookupA (insertA l k v) k = some v := by
  induction l with
  | nil => simp [insertA, lookupA]
  | cons p rest ih =>
      by_cases h : p.1 == k
      · simp [insertA, lookupA, h]
      · simp [insertA, lookupA, h, ih]

theorem lookupA_map_snd {α β : Type} (l : List (String × α)) (f : α → β) (k : String) :
    lookupA (l.map (fun p => (p.1, f p.2))) k = (lookupA l k).map f := by
  induction l with
  | nil => simp [lookupA]
  | cons p rest ih =>
      by_cases h : p.1 == k
      · simp [lookupA, h]
      · simp [lookupA, h, ih]

/-! ## `block.py` -/

/-- The run-control flag from `block.py`; the source pins it to `False`
("Temporary fix to prevent RC values from being returned"). -/
def RETURN_RC_VALUES : Bool := false

/-- A `Block` object (`block.py`): name, status, value, alarm,
visibility, run-control fields and units, with the constructor defaults
`low = high = inrange = None` and `enabled = "NO"`. -/
structure Block where
  name : String
  status : String
  value : String
  alarm : String
  visibility : Bool
  low : Option String
  high : Option String
  inrange : Option String
  enabled : String
  units : String

namespace Block

/-- `Block.__init__(name, status, value, alarm, visibility, units="")`. -/
def init (name status value alarm : String) (visibility : Bool)
    (units : String) : Block :=
  ⟨name, status, value, alarm, visibility, none, none, none, "NO", units⟩

/-- `Block.get_name`: returns `self.name`. -/
def get_name (b : Block) : String := b.name

/-- `Block.set_name(name)`: the source assigns `self.status = name`
(and leaves `self.name` alone). -/
def set_name (b : Block) (name : String) : Block :=
  { b with status := name }

/-- `Block.get_status`: returns `self.status`. -/
def get_status (b : Block) : String := b.status

/-- `Block.set_status(status)`: assigns `self.status`. -/
def set_status (b : Block) (status : String) : Block :=
  { b with status := status }

/-- `Block.get_description` with `RETURN_RC_VALUES = False`: the dict
`{"status": .., "value": formatted value, "alarm": .., "visibility": ..}`
where the value is suffixed with the units when units are nonempty. -/
def get_description (b : Block) : PyValue :=
  let formatted_value := if b.units = "" then b.value else b.value ++ " " ++ b.units
  PyValue.dict [("status", PyValue.str b.status),
                ("value", PyValue.str formatted_value),
                ("alarm", PyValue.str b.alarm),
                ("visibility", PyValue.bool b.visibility)]

end Block

/-! ## The Reading produced by `WebPageScraper.scrape_webpage`

`scrape_webpage` (in `get_webpage.py`) returns the dict
`{"config_name": name, "groups": {group: {block: description}},
"inst_pvs": {pv: description}}`, where each description is the
`Block.get_description` dict produced by `format_blocks`. -/

/-- Modelled from the spec: the block state carried per block in a
Reading — "(value, alarm, status, units, visibility)" serialized by
`format_blocks` (in `block_utils.py`, which is not under `src/`) as the
`Block.get_description` dict of `block.py`. -/
structure BlockDesc where
  status : String
  value : String
  alarm : String
  visibility : Bool

/-- Modelled from the spec: a Reading — "a mapping of group names to
mappings of block names to block state ... plus selected instrument-run
metadata fields", exactly the shape `scrape_webpage` builds as
`{"config_name": .., "groups": .., "inst_pvs": ..}`. -/
structure Reading where
  config_name : String
  groups : List (String × List (String × BlockDesc))
  inst_pvs : List (String × BlockDesc)

/-- The description dict of one block state (`Block.get_description`
after `format_blocks` has folded the units into the value). -/
def pyOfBlockDesc (d : BlockDesc) : PyValue :=
  PyValue.dict [("status", PyValue.str d.status),
                ("value", PyValue.str d.value),
                ("alarm", PyValue.str d.alarm),
                ("visibility", PyValue.bool d.visibility)]

/-- The dict of one group: block name → block description. -/
def pyOfGroup (blocks : List (String × BlockDesc)) : PyValue :=
  PyValue.dict (blocks.map (fun p => (p.1, pyOfBlockDesc p.2)))

/-- The Python dict a Reading is stored as in `_scraped_data`
(the `output` dict of `scrape_webpage`). -/
def pyOfReading (r : Reading) : PyValue :=
  PyValue.dict [("config_name", PyValue.str r.config_name),
                ("groups", PyValue.dict (r.groups.map (fun g => (g.1, pyOfGroup g.2)))),
                ("inst_pvs", PyValue.dict (r.inst_pvs.map (fun p => (p.1, pyOfBlockDesc p.2))))]

/-- Recover a block description from its dict form. -/
def blockDescOfPy : PyValue → Option BlockDesc
  | PyValue.dict [(k1, PyValue.str s), (k2, PyValue.str v), (k3, PyValue.str a), (k4, PyValue.bool b)] =>
      if k1 == "status" && k2 == "value" && k3 == "alarm" && k4 == "visibility" then
        some ⟨s, v, a, b⟩
      else none
  | _ => none

/-- Recover a block-name → description list from its dict entries. -/
def parseBlockList : List (String × PyValue) → Option (List (String × BlockDesc))
  | [] => some []
  | (n, v) :: rest =>
      match blockDescOfPy v, parseBlockList rest with
      | some d, some r => some ((n, d) :: r)
      | _, _ => none

/-- Recover a group-name → blocks list from its dict entries. -/
def parseGroupList : List (String × PyValue) → Option (List (String × List (String × BlockDesc)))
  | [] => some []
  | (n, PyValue.dict bs) :: rest =>
      match parseBlockList bs, parseGroupList rest with
      | some b, some r => some ((n, b) :: r)
      | _, _ => none
  | _ => none

/-- Deserialize a Reading from its Python dict form (the inverse used to
state the lossless round-trip). -/
def readingOfPy : PyValue → Option Reading
  | PyValue.dict [(k1, PyValue.str c), (k2, PyValue.dict gs), (k3, PyValue.dict ps)] =>
      if k1 == "config_name" && k2 == "groups" && k3 == "inst_pvs" then
        match parseGroupList gs, parseBlockList ps with
        | some g, some p => some ⟨c, g, p⟩
        | _, _ => none
      else none
  | _ => none

theorem blockDescOfPy_pyOfBlockDesc (d : BlockDesc) :
    blockDescOfPy (pyOfBlockDesc d) = some d := rfl

theorem parseBlockList_map (l : List (String × BlockDesc)) :
    parseBlockList (l.map (fun p => (p.1, pyOfBlockDesc p.2))) = some l := by
  induction l with
  | nil => rfl
  | cons p rest ih => simp [parseBlockList, blockDescOfPy_pyOfBlockDesc, ih]

theorem parseGroupList_map (l : List (String × List (String × BlockDesc))) :
    parseGroupList (l.map (fun g => (g.1, pyOfGroup g.2))) = some l := by
  induction l with
  | nil => rfl
  | cons g rest ih =>
      simp only [pyOfGroup] at ih ⊢
      simp [parseGroupList, parseBlockList_map, ih]

theorem readingOfPy_pyOfReading (r : Reading) :
    readingOfPy (pyOfReading r) = some r := by
  simp [readingOfPy, pyOfReading, parseGroupList_map, parseBlockList_map]

theorem serializable_pyOfBlockDesc (d : BlockDesc) :
    (pyOfBlockDesc d).serializable = true := rfl

theorem serializableEntries_blocks (l : List (String × BlockDesc)) :
    PyValue.serializable.serializableEntries (l.map (fun p => (p.1, pyOfBlockDesc p.2))) = true := by
  induction l with
  | nil => rfl
  | cons p rest ih => simp [PyValue.serializable.serializableEntries, serializable_pyOfBlockDesc, ih]

theorem serializableEntries_groups (l : List (String × List (String × BlockDesc))) :
    PyValue.serializable.serializableEntries (l.map (fun g => (g.1, pyOfGroup g.2))) = true := by
  induction l with
  | nil => rfl
  | cons g rest ih =>
      simp only [pyOfGroup] at ih ⊢
      simp [PyValue.serializable.serializableEntries, PyValue.serializable,
        serializableEntries_blocks, ih]

theorem serializable_pyOfReading (r : Reading) :
    (pyOfReading r).serializable = true := by
  simp [pyOfReading, PyValue.serializable, PyValue.serializable.serializableEntries,
    serializableEntries_blocks, serializableEntries_groups]

theorem pyOfReading_beq_empty_str (r : Reading) :
    (pyOfReading r == PyValue.str "") = false := rfl

/-! ## `webserver.py`: `MyHandler` -/

/-- A Python `\w` word character (ASCII: letters, digits, underscore). -/
def isWordChar (c : Char) : Bool := c.isAlphanum || c == '_'

/-- Python `str.upper()` on a captured group (character-wise ASCII
uppercasing). -/
def pyUpper (cs : List Char) : String := String.mk (cs.map Char.toUpper)

/-- Try the regex `key(\w+)&` at the start of `chars`: the literal `key`,
then a maximal nonempty word-character run, then a literal `&`.
Returns the captured run. (Backtracking cannot shorten the run, because
`&` is not a word character.) -/
def matchParamAt (key chars : List Char) : Option (List Char) :=
  if chars.take key.length == key then
    match (chars.drop key.length).takeWhile isWordChar,
          (chars.drop key.length).dropWhile isWordChar with
    | c :: run, d :: _ => if d = '&' then some (c :: run) else none
    | _, _ => none
  else none

/-- `re.search` for `key(\w+)&`: the capture of the leftmost match. -/
def searchParam (key : List Char) : List Char → Option (List Char)
  | [] => none
  | c :: rest =>
      match matchParamAt key (c :: rest) with
      | some r => some r
      | none => searchParam key rest

/-- The literal part of the callback pattern `/?callback=(\w+)&`
(the optional leading slash neither changes whether some position
matches nor what is captured). -/
def callbackPat : List Char := "callback=".toList

/-- The literal part of the instrument pattern `&Instrument=(\w+)&`. -/
def instrumentPat : List Char := "&Instrument=".toList

/-- A Python exception as `do_GET` distinguishes them: `ValueError`
(handled by the HTTP 400 branch) versus any other exception
(handled by the HTTP 404 branch). -/
inductive PyErr where
  | valueError : String → PyErr
  | otherError : String → PyErr
deriving DecidableEq

/-- `MyHandler._get_whether_ibex_is_running_on_all_instruments`, inner
loop: `for key in data: active[key] = data[key] != ""`. -/
def ibex_running_states (data : List (String × PyValue)) : List (String × Bool) :=
  data.map (fun p => (p.1, !(p.2 == PyValue.str "")))

/-- `MyHandler._get_detailed_state_of_specific_instrument`: unknown
instrument and unavailable instrument raise `ValueError`, and a
`json.dumps` failure is caught and re-raised as a `ValueError` too;
otherwise the instrument's cache entry is returned serialized. -/
def get_detailed_state_of_specific_instrument (instrument : String)
    (data : List (String × PyValue)) : Except PyErr String :=
  match lookupA data instrument with
  | none => Except.error (PyErr.valueError (instrument ++ " not known"))
  | some v =>
      if v == PyValue.str "" then
        Except.error (PyErr.valueError "Instrument has become unavailable")
      else
        match json_dumps v with
        | some s => Except.ok s
        | none => Except.error (PyErr.valueError "Unable to convert instrument data to JSON")

/-- An HTTP response as `do_GET` produces it: the status code sent with
`send_response`, and the JSONP body when one is written. -/
structure Response where
  status : Nat
  body : Option String
deriving DecidableEq

/-- `MyHandler.do_GET`, as a function of the request path and the cache
snapshot (`_scraped_data` under its lock). The second component records
whether the cache was read while handling the request (the code only
touches `_scraped_data` inside the `with _scraped_data_lock` block,
which is reached only after both regex searches succeed).
Branches: missing/malformed `callback` or `Instrument` parameter raises
`ValueError` → 400 before any cache access; `Instrument=ALL` returns the
liveness summary; otherwise the detail query runs, its `ValueError`s
map to 400 and any other exception to 404; a successful answer is
wrapped as `callback(answer)` with status 200. -/
def do_GET (path : String) (data : List (String × PyValue)) : Response × Bool :=
  match searchParam callbackPat path.toList, searchParam instrumentPat path.toList with
  | some cb, some inst =>
      let callback := String.mk cb
      let inst_uppercase := pyUpper inst
      if inst_uppercase == "ALL" then
        match json_dumps (PyValue.dict ((ibex_running_states data).map
            (fun p => (p.1, PyValue.bool p.2)))) with
        | some ans => (⟨200, some (callback ++ "(" ++ ans ++ ")")⟩, true)
        | none => (⟨404, none⟩, true)
      else
        match get_detailed_state_of_specific_instrument inst_uppercase data with
        | Except.ok ans => (⟨200, some (callback ++ "(" ++ ans ++ ")")⟩, true)
        | Except.error (PyErr.valueError _) => (⟨400, none⟩, true)
        | Except.error (PyErr.otherError _) => (⟨404, none⟩, true)
  | _, _ => (⟨400, none⟩, false)

/-! ## `webserver.py`: `WebScraper` -/

/-- `WAIT_BETWEEN_UPDATES = 3` (seconds between polls after success). -/
def WAIT_BETWEEN_UPDATES : Nat := 3

/-- `WAIT_BETWEEN_FAILED_UPDATES = 60` (backoff after a failed poll). -/
def WAIT_BETWEEN_FAILED_UPDATES : Nat := 60

/-- `RETRIES_BETWEEN_LOGS = 60` (failure-log throttle threshold). -/
def RETRIES_BETWEEN_LOGS : Nat := 60

/-- The per-thread log-throttling state of a `WebScraper`:
`_previously_failed` and `_tries_since_logged` (initially `False`, `0`). -/
structure ScraperState where
  previously_failed : Bool
  tries_since_logged : Nat
deriving DecidableEq

/-- One successful loop iteration of `WebScraper.run`, on the throttling
state: `_tries_since_logged += 1` happens before the fetch, then a
"Reconnected" notice is logged iff `_previously_failed` was set, and
`_previously_failed` is cleared. (`_tries_since_logged` is NOT reset.)
Returns the new state and whether the reconnect notice was logged. -/
def stepSuccess (s : ScraperState) : ScraperState × Bool :=
  (⟨false, s.tries_since_logged + 1⟩, s.previously_failed)

/-- One failed loop iteration of `WebScraper.run`, on the throttling
state: after the `_tries_since_logged += 1` at the top of the loop, the
except-branch logs a failure notice iff `not _previously_failed or
_tries_since_logged >= RETRIES_BETWEEN_LOGS`, in which case it sets
`_previously_failed = True` and resets `_tries_since_logged = 0`.
Returns the new state and whether the failure notice was logged. -/
def stepFailure (s : ScraperState) : ScraperState × Bool :=
  let t := s.tries_since_logged + 1
  if !s.previously_failed || decide (t ≥ RETRIES_BETWEEN_LOGS) then
    (⟨true, 0⟩, true)
  else
    (⟨true, t⟩, false)

/-- `iterFailures s k`: the throttling state after `k` consecutive
failed iterations starting from state `s`. -/
def iterFailures (s : ScraperState) : Nat → ScraperState
  | 0 => s
  | k + 1 => (stepFailure (iterFailures s k)).1

/-- Whether the `i`-th failure (1-indexed) of a run of consecutive
failures that immediately follows a successful fetch logs a failure
notice, starting from an arbitrary prior state `s0`. -/
def emitsAtFailure (s0 : ScraperState) (i : Nat) : Bool :=
  (stepFailure (iterFailures (stepSuccess s0).1 (i - 1))).2

/-- The environment a polling thread runs against: the successive values
read from the shared `_running` flag (written by the main thread), and
the successive outcomes of `scrape_webpage` (`some` reading, or `none`
when it raises). -/
structure PollerEnv where
  flags : Nat → Bool
  fetchResult : Nat → Option PyValue

/-- An observable event of a polling thread: a read of `_running`, one
second of `sleep(1)`, a `scrape_webpage` call, a write to
`_scraped_data`, or a log message. -/
inductive Ev where
  | flagRead : Bool → Ev
  | sleepSecond : Ev
  | fetchAttempt : Bool → Ev
  | cacheWrite : String → PyValue → Ev
  | logMsg : String → Ev

/-- `WebScraper.wait(seconds)`: `for i in range(seconds): if not
self._running: return; sleep(1)`. Returns the event trace and the index
of the next unread `_running` value. -/
def waitTrace (env : PollerEnv) : Nat → Nat → List Ev × Nat
  | 0, i => ([], i)
  | s + 1, i =>
      if env.flags i then
        (Ev.flagRead true :: Ev.sleepSecond :: (waitTrace env s (i + 1)).1,
         (waitTrace env s (i + 1)).2)
      else ([Ev.flagRead false], i + 1)

/-- `WebScraper.run` for instrument `name`, as an event trace: while
`_running`, increment `_tries_since_logged`, call `scrape_webpage`; on
success write the reading to `_scraped_data[name]`, log "Reconnected"
iff previously failed, clear the flag, and `wait(WAIT_BETWEEN_UPDATES)`;
on failure log a (throttled) notice, write `""` to
`_scraped_data[name]`, and `wait(WAIT_BETWEEN_FAILED_UPDATES)`.
`fuel` bounds the number of loop iterations (the loop itself only stops
when a read of `_running` returns false). -/
def runTrace (env : PollerEnv) (name : String) :
    Nat → ScraperState → Nat → Nat → List Ev
  | 0, _, _, _ => []
  | fuel + 1, st, fi, xi =>
      if env.flags fi then
        match env.fetchResult xi with
        | some r =>
            Ev.flagRead true :: Ev.fetchAttempt true :: Ev.cacheWrite name r ::
              ((if st.previously_failed then [Ev.logMsg "Reconnected"] else []) ++
               ((waitTrace env WAIT_BETWEEN_UPDATES (fi + 1)).1 ++
                runTrace env name fuel (stepSuccess st).1
                  (waitTrace env WAIT_BETWEEN_UPDATES (fi + 1)).2 (xi + 1)))
        | none =>
            Ev.flagRead true :: Ev.fetchAttempt false ::
              ((if (stepFailure st).2 then [Ev.logMsg "Failed to get data from instrument"] else []) ++
               (Ev.cacheWrite name (PyValue.str "") ::
                ((waitTrace env WAIT_BETWEEN_FAILED_UPDATES (fi + 1)).1 ++
                 runTrace env name fuel (stepFailure st).1
                   (waitTrace env WAIT_BETWEEN_FAILED_UPDATES (fi + 1)).2 (xi + 1))))
      else [Ev.flagRead false]

/-- Whether an event is a read of `_running` that returned `False`. -/
def isFalseRead : Ev → Bool
  | Ev.flagRead false => true
  | _ => false

/-- Whether an event is a write to the shared cache. -/
def isWrite : Ev → Bool
  | Ev.cacheWrite _ _ => true
  | _ => false

/-- A trace in which, once some read of `_running` has returned `False`,
every later event is again such a read (so in particular no cache write,
no fetch and no sleep happens after the stop flag has been observed).
`stopped` records whether a false read has already occurred. -/
def postStopOk (stopped : Bool) : List Ev → Bool
  | [] => true
  | e :: rest => (!stopped || isFalseRead e) && postStopOk (stopped || isFalseRead e) rest

/-- A trace that is an alternation of `flagRead true` / `sleepSecond`
pairs, optionally terminated by a single `flagRead false`: every second
of sleeping is immediately preceded by its own check of the stop flag
(the flag is checked at least once per second), and a false read ends
the wait at once. -/
def altChecksSleeps : List Ev → Bool
  | [] => true
  | [Ev.flagRead false] => true
  | Ev.flagRead true :: Ev.sleepSecond :: rest => altChecksSleeps rest
  | _ => false

/-! ## `external_webpage/get_webpage.py`: `PageReader` -/

/-- `PORT_INSTPV = 4812`. -/
def PORT_INSTPV : Nat := 4812

/-- `PORT_BLOCKS = 4813`. -/
def PORT_BLOCKS : Nat := 4813

/-- `PORT_CONFIG = 8008`. -/
def PORT_CONFIG : Nat := 8008

/-- An outbound HTTP GET as issued through `requests.get`: the url and
the value of the `timeout` keyword argument (`none` when the call omits
it, in which case `requests` waits indefinitely). -/
structure HttpGet where
  url : String
  timeout : Option Nat
deriving DecidableEq

/-- The request `PageReader.get_info(port, group_name)` issues:
`requests.get('http://{host}:{port}/group?name={group_name}&format=json')`
— called without a `timeout` argument. -/
def get_info_request (host : String) (port : Nat) (group_name : String) : HttpGet :=
  ⟨"http://" ++ host ++ ":" ++ toString port ++ "/group?name=" ++ group_name ++ "&format=json",
   none⟩

/-- The request `PageReader.read_config(port)` issues:
`requests.get('http://%s:%s/' % (self._host, port))` — called without a
`timeout` argument. -/
def read_config_request (host : String) (port : Nat) : HttpGet :=
  ⟨"http://" ++ host ++ ":" ++ toString port ++ "/", none⟩

/-! ## Concrete inputs used by the witnesses -/

/-- A concrete Reading (one group with one block, one run-status PV). -/
def demoReading : Reading :=
  ⟨"demo_config",
   [("GROUP1", [("BLOCK1", ⟨"Connected", "1.0 uA", "NONE", true⟩)])],
   [("RUNSTATE", ⟨"Connected", "RUNNING", "NONE", true⟩)]⟩

/-- A cache snapshot: instrument A has a Reading, instrument B is
marked unavailable, no other instrument has an entry. -/
def demoCacheAB : List (String × PyValue) :=
  [("A", pyOfReading demoReading), ("B", PyValue.str "")]

/-- A cache snapshot whose single entry holds a non-JSON-serializable
Python object (as happens when a raw `Block` object ends up in the
scraped data). -/
def demoBadCache : List (String × PyValue) :=
  [("BAD", PyValue.dict [("x", PyValue.obj "Block")])]

/-- A poller environment whose stop flag is up for the first read and
down from the second read on, with every fetch succeeding. -/
def demoEnv : PollerEnv :=
  ⟨fun j => j == 0, fun _ => some (pyOfReading demoReading)⟩

/-! ## Theorems -/

/-- Claim C9: for every Block `b` and string `n`, `b.set_name(n)`
assigns `n` to the block's status field and leaves the name field
unchanged: afterwards `b.get_name()` returns the block's original name
and `b.get_status()` returns `n`. -/
theorem C9_set_name_sets_status (b : Block) (n : String) :
    (b.set_name n).get_name = b.name ∧ (b.set_name n).name = b.name
  ∧ (b.set_name n).get_status = n :=
  ⟨rfl, rfl, rfl⟩

/-- Claim C2: the liveness summary maps each instrument name present in
the snapshot to `true` if its entry is a Reading (a dict — in particular
any Reading stored by a successful poll) and to `false` if its entry is
the `""` sentinel, and has no key for an instrument with no cache
entry. -/
theorem C2_liveness_summary (data : List (String × PyValue)) (k : String) :
    (∀ entries, lookupA data k = some (PyValue.dict entries) →
       lookupA (ibex_running_states data) k = some true)
  ∧ (lookupA data k = some (PyValue.str "") →
       lookupA (ibex_running_states data) k = some false)
  ∧ (lookupA data k = none → lookupA (ibex_running_states data) k = none) := by
  have hmap := lookupA_map_snd data (fun v => !(v == PyValue.str "")) k
  refine ⟨?_, ?_, ?_⟩
  · intro entries h
    unfold ibex_running_states
    rw [hmap, h]
    rfl
  · intro h
    unfold ibex_running_states
    rw [hmap, h]
    rfl
  · intro h
    unfold ibex_running_states
    rw [hmap, h]
    rfl

/-- Witness for C2 on the concrete snapshot `demoCacheAB`. -/
theorem C2_liveness_summary_witness :
    lookupA (ibex_running_states demoCacheAB) "A" = some true
  ∧ lookupA (ibex_running_states demoCacheAB) "B" = some false
  ∧ lookupA (ibex_running_states demoCacheAB) "C" = none :=
  ⟨(C2_liveness_summary demoCacheAB "A").1 _ rfl,
   (C2_liveness_summary demoCacheAB "B").2.1 rfl,
   (C2_liveness_summary demoCacheAB "C").2.2 rfl⟩

/-- Claim C3: the instrument-detail query errors with "not known" when
the name is absent from the snapshot, errors with "unavailable" when the
entry is the `""` sentinel, returns the full Reading serialized when the
entry is a Reading — and after a failed poll wrote `""` for the
instrument, the query errors rather than returning stale data, whatever
the cache held before. -/
theorem C3_instrument_detail (inst : String) (data prior : List (String × PyValue)) :
    (lookupA data inst = none →
       get_detailed_state_of_specific_instrument inst data
         = Except.error (PyErr.valueError (inst ++ " not known")))
  ∧ (lookupA data inst = some (PyValue.str "") →
       get_detailed_state_of_specific_instrument inst data
         = Except.error (PyErr.valueError "Instrument has become unavailable"))
  ∧ (∀ r : Reading, lookupA data inst = some (pyOfReading r) →
       get_detailed_state_of_specific_instrument inst data
         = Except.ok (render (pyOfReading r)))
  ∧ get_detailed_state_of_specific_instrument inst (insertA prior inst (PyValue.str ""))
       = Except.error (PyErr.valueError "Instrument has become unavailable") := by
  refine ⟨?_, ?_, ?_, ?_⟩
  · intro h
    unfold get_detailed_state_of_specific_instrument
    rw [h]
  · intro h
    unfold get_detailed_state_of_specific_instrument
    rw [h]
    rfl
  · intro r h
    unfold get_detailed_state_of_specific_instrument
    rw [h]
    simp [pyOfReading_beq_empty_str, json_dumps, serializable_pyOfReading]
  · unfold get_detailed_state_of_specific_instrument
    rw [lookupA_insertA_self]
    rfl

/-- Witness for C3 at concrete inputs: unknown instrument, unavailable
instrument, present instrument, and a fresh failure overwriting a
previously present Reading. -/
theorem C3_instrument_detail_witness :
    get_detailed_state_of_specific_instrument "C" demoCacheAB
      = Except.error (PyErr.valueError ("C" ++ " not known"))
  ∧ get_detailed_state_of_specific_instrument "B" demoCacheAB
      = Except.error (PyErr.valueError "Instrument has become unavailable")
  ∧ get_detailed_state_of_specific_instrument "A" demoCacheAB
      = Except.ok (render (pyOfReading demoReading))
  ∧ get_detailed_state_of_specific_instrument "A" (insertA demoCacheAB "A" (PyValue.str ""))
      = Except.error (PyErr.valueError "Instrument has become unavailable") :=
  ⟨(C3_instrument_detail "C" demoCacheAB []).1 rfl,
   (C3_instrument_detail "B" demoCacheAB []).2.1 rfl,
   (C3_instrument_detail "A" demoCacheAB []).2.2.1 demoReading rfl,
   (C3_instrument_detail "A" demoCacheAB demoCacheAB).2.2.2⟩

/-- Claim C6 (refuted intent, confirmed observation): neither
`PageReader.get_info` nor `PageReader.read_config` passes a timeout to
`requests.get` — every fetch is issued with `timeout = none`, so an
in-flight call to a hung host can block indefinitely. -/
theorem C6_fetch_has_no_timeout (host : String) (port : Nat) (group_name : String) :
    (get_info_request host port group_name).timeout = none
  ∧ (read_config_request host port).timeout = none :=
  ⟨rfl, rfl⟩

/-- Claim C4, counterexample: on a request whose instrument entry cannot
be converted to JSON, the server responds with HTTP 400 — not 404 as the
claim states. -/
theorem C4_counterexample :
    (do_GET "?callback=cb&Instrument=BAD&" demoBadCache).1.status = 400
  ∧ ¬ (do_GET "?callback=cb&Instrument=BAD&" demoBadCache).1.status = 404 := by
  have h400 : (do_GET "?callback=cb&Instrument=BAD&" demoBadCache).1.status = 400 := rfl
  exact ⟨h400, by rw [h400]; decide⟩

/-- Claim C4 as amended: a serialization failure while building the
detail response is surfaced as HTTP 400, because
`_get_detailed_state_of_specific_instrument` catches the `json.dumps`
exception and re-raises it as a `ValueError`, which `do_GET` handles
with `send_response(400)`; the 404 branch is reserved for
non-`ValueError` exceptions. -/
theorem C4_serialization_failure_is_400 (path : String) (data : List (String × PyValue))
    (cb inst : List Char) (v : PyValue)
    (h1 : searchParam callbackPat path.toList = some cb)
    (h2 : searchParam instrumentPat path.toList = some inst)
    (h3 : (pyUpper inst == "ALL") = false)
    (h4 : lookupA data (pyUpper inst) = some v)
    (h5 : (v == PyValue.str "") = false)
    (h6 : v.serializable = false) :
    (do_GET path data).1 = ⟨400, none⟩ := by
  unfold do_GET
  rw [h1, h2]
  simp only [h3, Bool.false_eq_true, if_false]
  unfold get_detailed_state_of_specific_instrument
  rw [h4]
  simp only [h5, Bool.false_eq_true, if_false]
  unfold json_dumps
  simp only [h6, Bool.false_eq_true, if_false]

/-- Witness for C4 as amended, at the concrete request of the
counterexample. -/
theorem C4_serialization_failure_is_400_witness :
    (do_GET "?callback=cb&Instrument=BAD&" demoBadCache).1 = ⟨400, none⟩ :=
  C4_serialization_failure_is_400 "?callback=cb&Instrument=BAD&" demoBadCache
    "cb".toList "BAD".toList (PyValue.dict [("x", PyValue.obj "Block")])
    rfl rfl rfl rfl rfl rfl

/-- A request on which either regex search fails is answered with 400,
without reading the cache and uniformly in the cache contents. -/
theorem do_GET_parse_fail (path : String)
    (data data2 : List (String × PyValue))
    (h : searchParam callbackPat path.toList = none
       ∨ searchParam instrumentPat path.toList = none) :
    (do_GET path data).1.status = 400
  ∧ (do_GET path data).2 = false
  ∧ do_GET path data = do_GET path data2 := by
  cases hc : searchParam callbackPat path.toList with
  | none =>
      refine ⟨?_, ?_, ?_⟩ <;>
        · unfold do_GET
          rw [hc]
  | some cb =>
      cases hi : searchParam instrumentPat path.toList with
      | none =>
          refine ⟨?_, ?_, ?_⟩ <;>
            · unfold do_GET
              rw [hc, hi]
      | some inst =>
          rcases h with h | h
          · rw [hc] at h; exact absurd h (by simp)
          · rw [hi] at h; exact absurd h (by simp)

/-- Claim C5: a GET request whose path lacks a well-formed callback
parameter or a well-formed Instrument parameter is answered with HTTP
400, the cache is not read on that path, and the response does not
depend on the cache contents at all. -/
theorem C5_malformed_rejected_before_cache (path : String)
    (data data2 : List (String × PyValue))
    (h : searchParam callbackPat path.toList = none
       ∨ searchParam instrumentPat path.toList = none) :
    (do_GET path data).1.status = 400
  ∧ (do_GET path data).2 = false
  ∧ do_GET path data = do_GET path data2 :=
  do_GET_parse_fail path data data2 h

/-- Witness for C5: a request with no parameters at all is rejected with
400 without touching the cache, uniformly in the cache contents. -/
theorem C5_malformed_rejected_before_cache_witness :
    (do_GET "/index.html" []).1.status = 400
  ∧ (do_GET "/index.html" []).2 = false
  ∧ do_GET "/index.html" [] = do_GET "/index.html" demoCacheAB :=
  C5_malformed_rejected_before_cache "/index.html" [] demoCacheAB (Or.inl rfl)

/-- If the anchored pattern match succeeds, the scanned text literally
starts with the key, then the nonempty captured word run, then `&`. -/
theorem matchParamAt_sound (key chars run : List Char)
    (h : matchParamAt key chars = some run) :
    ∃ post, chars = key ++ run ++ '&' :: post ∧ run ≠ [] ∧ run.all isWordChar = true := by
  unfold matchParamAt at h
  by_cases hk : (chars.take key.length == key) = true
  · rw [if_pos hk] at h
    have hkey : chars.take key.length = key := eq_of_beq hk
    cases htw : (chars.drop key.length).takeWhile isWordChar with
    | nil => rw [htw] at h; simp at h
    | cons c run0 =>
        cases hdw : (chars.drop key.length).dropWhile isWordChar with
        | nil => rw [htw, hdw] at h; simp at h
        | cons d post =>
            rw [htw, hdw] at h
            have h2 : (if d = '&' then some (c :: run0) else none) = some run := h
            by_cases hd : d = '&'
            · rw [if_pos hd] at h2
              subst hd
              have hrun : run = c :: run0 := by
                cases h2
                rfl
              subst hrun
              refine ⟨post, ?_, by simp, ?_⟩
              · conv_lhs => rw [← List.take_append_drop key.length chars]
                rw [hkey]
                have hsplit : (chars.drop key.length).takeWhile isWordChar
                    ++ (chars.drop key.length).dropWhile isWordChar
                    = chars.drop key.length :=
                  List.takeWhile_append_dropWhile isWordChar (chars.drop key.length)
                rw [htw, hdw] at hsplit
                rw [← hsplit]
                simp
              · refine List.all_eq_true.mpr ?_
                intro x hx
                exact List.mem_takeWhile_imp (htw ▸ hx)
            · rw [if_neg hd] at h2
              exact absurd h2 (by simp)
  · rw [if_neg hk] at h
    exact absurd h (by simp)

/-- If `re.search` for `key(\w+)&` succeeds on a text, the text contains
the key followed by the nonempty captured word run followed by `&`. -/
theorem searchParam_sound (key : List Char) : ∀ chars run : List Char,
    searchParam key chars = some run →
    ∃ pre post, chars = pre ++ key ++ run ++ '&' :: post
      ∧ run ≠ [] ∧ run.all isWordChar = true := by
  intro chars
  induction chars with
  | nil => intro run h; simp [searchParam] at h
  | cons c rest ih =>
      intro run h
      unfold searchParam at h
      cases hm : matchParamAt key (c :: rest) with
      | some r =>
          rw [hm] at h
          have hr : r = run := by cases h; rfl
          subst hr
          obtain ⟨post, hchars, hne, hall⟩ := matchParamAt_sound key (c :: rest) r hm
          exact ⟨[], post, by simpa using hchars, hne, hall⟩
      | none =>
          rw [hm] at h
          obtain ⟨pre, post, hchars, hne, hall⟩ := ih run h
          exact ⟨c :: pre, post, by simp [hchars], hne, hall⟩

/-- Claim C10: the handler only accepts a request whose path contains
`callback=<word>` immediately followed by `&` and `&Instrument=<word>`
immediately followed by `&`; in particular the path
`?callback=cb&Instrument=DEMO`, whose query string ends at the
Instrument value with no trailing `&`, is rejected with HTTP 400 even
though both parameters are present. -/
theorem C10_trailing_ampersand_required :
    (∀ (path : String) (data : List (String × PyValue)),
       (do_GET path data).1.status = 200 →
       (∃ pre run post, path.toList = pre ++ callbackPat ++ run ++ '&' :: post
          ∧ run ≠ [] ∧ run.all isWordChar = true)
     ∧ (∃ pre run post, path.toList = pre ++ instrumentPat ++ run ++ '&' :: post
          ∧ run ≠ [] ∧ run.all isWordChar = true))
  ∧ (∀ data : List (String × PyValue),
       (do_GET "?callback=cb&Instrument=DEMO" data).1.status = 400) := by
  constructor
  · intro path data h200
    cases hc : searchParam callbackPat path.toList with
    | none =>
        exfalso
        have h400 := (do_GET_parse_fail path data data (Or.inl hc)).1
        rw [h200] at h400
        exact absurd h400 (by decide)
    | some cb =>
        cases hi : searchParam instrumentPat path.toList with
        | none =>
            exfalso
            have h400 := (do_GET_parse_fail path data data (Or.inr hi)).1
            rw [h200] at h400
            exact absurd h400 (by decide)
        | some inst =>
            obtain ⟨pre1, post1, hp1, hn1, ha1⟩ :=
              searchParam_sound callbackPat path.toList cb hc
            obtain ⟨pre2, post2, hp2, hn2, ha2⟩ :=
              searchParam_sound instrumentPat path.toList inst hi
            exact ⟨⟨pre1, cb, post1, hp1, hn1, ha1⟩,
                   ⟨pre2, inst, post2, hp2, hn2, ha2⟩⟩
  · intro data
    unfold do_GET
    rw [show searchParam instrumentPat ("?callback=cb&Instrument=DEMO" : String).toList
          = none from rfl]
    rw [show searchParam callbackPat ("?callback=cb&Instrument=DEMO" : String).toList
          = some "cb".toList from rfl]

/-- Witness for C10: a path carrying both trailing ampersands is
accepted (HTTP 200 on the ALL query), and the theorem then exhibits the
two required pattern occurrences in it. -/
theorem C10_trailing_ampersand_required_witness :
    (∃ pre run post, ("?callback=cb&Instrument=ALL&" : String).toList
        = pre ++ callbackPat ++ run ++ '&' :: post
        ∧ run ≠ [] ∧ run.all isWordChar = true)
  ∧ (∃ pre run post, ("?callback=cb&Instrument=ALL&" : String).toList
        = pre ++ instrumentPat ++ run ++ '&' :: post
        ∧ run ≠ [] ∧ run.all isWordChar = true) :=
  C10_trailing_ampersand_required.1 "?callback=cb&Instrument=ALL&" [] rfl

/-- Claim C8: after a successful fetch stores a Reading for instrument
`name` in the cache (the success branch of `WebScraper.run` performs
exactly `_scraped_data[name] = temp_data`), a detail query for `name`
with no intervening poll returns exactly that Reading serialized, and
the serialized group/block structure determines the Reading: the dict
form stored and serialized deserializes back to the same Reading. -/
theorem C8_success_then_detail_roundtrip (r : Reading) (name : String)
    (cache : List (String × PyValue)) :
    get_detailed_state_of_specific_instrument name (insertA cache name (pyOfReading r))
      = Except.ok (render (pyOfReading r))
  ∧ json_dumps (pyOfReading r) = some (render (pyOfReading r))
  ∧ readingOfPy (pyOfReading r) = some r := by
  refine ⟨?_, ?_, readingOfPy_pyOfReading r⟩
  · unfold get_detailed_state_of_specific_instrument
    rw [lookupA_insertA_self]
    simp [pyOfReading_beq_empty_str, json_dumps, serializable_pyOfReading]
  · simp [json_dumps, serializable_pyOfReading]

/-- Claim C1, counterexample: the only counter the poller keeps
(`_tries_since_logged`) is not reset to zero by a successful fetch — a
success from the state `(previously_failed = False, counter = 5)` leaves
the counter at 6, not 0. -/
theorem C1_counterexample :
    (stepSuccess ⟨false, 5⟩).1.tries_since_logged = 6
  ∧ ¬ (stepSuccess ⟨false, 5⟩).1.tries_since_logged = 0 := by
  exact ⟨rfl, by decide⟩

theorem iterFailures_after_success (s0 : ScraperState) :
    ∀ k, iterFailures (stepSuccess s0).1 (k + 1)
      = ⟨true, k % RETRIES_BETWEEN_LOGS⟩ := by
  intro k
  induction k with
  | zero =>
      simp [iterFailures, stepSuccess, stepFailure]
  | succ k ih =>
      show (stepFailure (iterFailures (stepSuccess s0).1 (k + 1))).1 = _
      rw [ih]
      unfold stepFailure RETRIES_BETWEEN_LOGS
      by_cases h : k % 60 + 1 ≥ 60
      · simp only [h]
        simp
        omega
      · simp only [h]
        simp
        omega

/-- Claim C1 as amended: the throttle counter is reset to zero exactly
when a failure notice is emitted (not on success), and in any run of
consecutive failures immediately following a successful fetch, a notice
is emitted on the 1st failure and then again exactly at every 60th
subsequent failure (failures 1, 61, 121, ...; 60 = the throttle
threshold `RETRIES_BETWEEN_LOGS`), never in between. -/
theorem C1_throttle_pattern :
    (∀ s : ScraperState, (stepFailure s).2 = true →
       (stepFailure s).1.tries_since_logged = 0)
  ∧ (∀ (s0 : ScraperState) (i : Nat), 1 ≤ i →
       (emitsAtFailure s0 i = true ↔ i % RETRIES_BETWEEN_LOGS = 1)) := by
  constructor
  · intro s h
    unfold stepFailure at *
    by_cases hc : (!s.previously_failed || decide (s.tries_since_logged + 1 ≥ RETRIES_BETWEEN_LOGS)) = true
    · simp only [hc, if_true]
    · simp only [hc] at h
      simp at h
  · intro s0 i hi
    match i, hi with
    | 1, _ =>
        unfold emitsAtFailure iterFailures stepSuccess stepFailure
        simp [RETRIES_BETWEEN_LOGS]
    | (k + 2), _ =>
        unfold emitsAtFailure
        have : k + 2 - 1 = k + 1 := by omega
        rw [this, iterFailures_after_success s0 k]
        unfold stepFailure RETRIES_BETWEEN_LOGS
        simp only [Bool.not_true, Bool.false_or]
        by_cases h : k % 60 + 1 ≥ 60
        · simp only [h]
          simp
          omega
        · simp only [h]
          simp
          omega

/-- Witness for C1 as amended: an emitting failure resets the counter,
and notices are emitted at failures 1 and 61 after a success. -/
theorem C1_throttle_pattern_witness :
    (stepFailure ⟨true, 59⟩).1.tries_since_logged = 0
  ∧ emitsAtFailure ⟨false, 5⟩ 1 = true
  ∧ emitsAtFailure ⟨false, 5⟩ 61 = true :=
  ⟨C1_throttle_pattern.1 ⟨true, 59⟩ (by decide),
   (C1_throttle_pattern.2 ⟨false, 5⟩ 1 (by decide)).mpr (by decide),
   (C1_throttle_pattern.2 ⟨false, 5⟩ 61 (by decide)).mpr (by decide)⟩

theorem waitTrace_altChecksSleeps (env : PollerEnv) : ∀ s i : Nat,
    altChecksSleeps (waitTrace env s i).1 = true := by
  intro s
  induction s with
  | zero => intro i; simp [waitTrace, altChecksSleeps]
  | succ s ih =>
      intro i
      by_cases h : env.flags i <;>
        simp [waitTrace, h, altChecksSleeps, ih]

theorem postStopOk_false_cons (e : Ev) (l : List Ev) (h : isFalseRead e = false) :
    postStopOk false (e :: l) = postStopOk false l := by
  simp [postStopOk, h]

theorem postStopOk_append (xs ys : List Ev) : ∀ s : Bool,
    postStopOk s (xs ++ ys)
      = (postStopOk s xs && postStopOk (s || xs.any isFalseRead) ys) := by
  induction xs with
  | nil => intro s; simp [postStopOk]
  | cons e rest ih =>
      intro s
      simp [postStopOk, ih, List.any_cons, Bool.or_assoc, Bool.and_assoc]

theorem waitTrace_postStopOk (env : PollerEnv) : ∀ s i : Nat,
    postStopOk false (waitTrace env s i).1 = true := by
  intro s
  induction s with
  | zero => intro i; simp [waitTrace, postStopOk]
  | succ s ih =>
      intro i
      by_cases h : env.flags i <;>
        simp [waitTrace, h, postStopOk, isFalseRead, ih]

theorem waitTrace_stop_cases (env : PollerEnv) : ∀ s i : Nat,
    (waitTrace env s i).1.any isFalseRead = false
  ∨ (env.flags ((waitTrace env s i).2 - 1) = false ∧ 1 ≤ (waitTrace env s i).2) := by
  intro s
  induction s with
  | zero => intro i; left; simp [waitTrace]
  | succ s ih =>
      intro i
      by_cases h : env.flags i
      · rcases ih (i + 1) with ha | hb
        · left
          simp [waitTrace, h, List.any_cons, isFalseRead, ha]
        · right
          simpa [waitTrace, h] using hb
      · right
        simp [waitTrace, h, isFalseRead]

theorem runTrace_stopped (env : PollerEnv) (name : String) (fuel : Nat)
    (st : ScraperState) (fi xi : Nat) (h : env.flags fi = false) :
    ∀ s : Bool, postStopOk s (runTrace env name fuel st fi xi) = true := by
  cases fuel with
  | zero => intro s; simp [runTrace, postStopOk]
  | succ n => intro s; simp [runTrace, h, postStopOk, isFalseRead]

theorem runTrace_postStopOk (env : PollerEnv)
    (hmono : ∀ j, env.flags j = false → env.flags (j + 1) = false)
    (name : String) : ∀ (fuel : Nat) (st : ScraperState) (fi xi : Nat),
    postStopOk false (runTrace env name fuel st fi xi) = true := by
  intro fuel
  induction fuel with
  | zero => intro st fi xi; simp [runTrace, postStopOk]
  | succ n ih =>
      intro st fi xi
      by_cases hf : env.flags fi
      · have hwait : ∀ (w : Nat) (st2 : ScraperState),
            postStopOk false ((waitTrace env w (fi + 1)).1
              ++ runTrace env name n st2 (waitTrace env w (fi + 1)).2 (xi + 1)) = true := by
          intro w st2
          rw [postStopOk_append, waitTrace_postStopOk env w (fi + 1)]
          simp only [Bool.true_and]
          cases hany : (waitTrace env w (fi + 1)).1.any isFalseRead with
          | false =>
              simp only [hany, Bool.or_false]
              exact ih st2 _ _
          | true =>
              simp only [hany, Bool.or_true]
              rcases waitTrace_stop_cases env w (fi + 1) with ha | ⟨hb, hge⟩
              · rw [ha] at hany
                exact absurd hany (by simp)
              · have hflag : env.flags (waitTrace env w (fi + 1)).2 = false := by
                  have := hmono ((waitTrace env w (fi + 1)).2 - 1) hb
                  rwa [Nat.sub_add_cancel hge] at this
                exact runTrace_stopped env name n st2 _ (xi + 1) hflag true
        cases hx : env.fetchResult xi with
        | some r =>
            have hw := hwait WAIT_BETWEEN_UPDATES (stepSuccess st).1
            simp only [runTrace, hf, hx, if_true]
            by_cases hpf : st.previously_failed = true
            · simpa [postStopOk, isFalseRead, hpf] using hw
            · simpa [postStopOk, isFalseRead, hpf] using hw
        | none =>
            have hw := hwait WAIT_BETWEEN_FAILED_UPDATES (stepFailure st).1
            simp only [runTrace, hf, hx, if_true]
            by_cases hemit : (stepFailure st).2 = true
            · simpa [postStopOk, isFalseRead, hemit] using hw
            · simpa [postStopOk, isFalseRead, hemit] using hw
      · exact runTrace_stopped env name (n + 1) st fi xi (by simpa using hf) false

/-- Claim C7: the interruptible wait of a poller checks the stop flag at
least once per second (each second of sleeping sits between its own flag
check and the next event, and a false read ends the wait immediately),
and — provided the stop flag stays down once lowered, as in the
program's shutdown — once any read of `_running` has observed `False`,
the poller performs no further action at all: in particular no further
cache write ever follows a `False` read in the run trace. -/
theorem C7_interruptible_stop :
    (∀ (env : PollerEnv) (s i : Nat), altChecksSleeps (waitTrace env s i).1 = true)
  ∧ (∀ env : PollerEnv, (∀ j, env.flags j = false → env.flags (j + 1) = false) →
       ∀ (name : String) (fuel : Nat) (st : ScraperState) (fi xi : Nat),
         postStopOk false (runTrace env name fuel st fi xi) = true) :=
  ⟨waitTrace_altChecksSleeps,
   fun env hmono name fuel st fi xi => runTrace_postStopOk env hmono name fuel st fi xi⟩

/-- Witness for C7 on the concrete environment `demoEnv` (stop flag up
for one read, then down for good). -/
theorem C7_interruptible_stop_witness :
    altChecksSleeps (waitTrace demoEnv 5 0).1 = true
  ∧ postStopOk false (runTrace demoEnv "DEMO" 3 ⟨false, 0⟩ 0 0) = true :=
  ⟨C7_interruptible_stop.1 demoEnv 5 0,
   C7_interruptible_stop.2 demoEnv
     (by intro j h; simp [demoEnv]) "DEMO" 3 ⟨false, 0⟩ 0 0⟩
